import Mathlib

/-!
Verification of the orchestration layer in `saic_client_tosate/ws_api.py`
(session management, control-command retry coordination, telemetry forwarding).

Networked calls are shallowly embedded: the server is an oracle.  For the
control-command path the oracle is a function `env : Nat → Response` giving the
decoded response to the n-th attempt (attempts are numbered from 0); for login,
the decoded login response is passed as an argument.  Python byte strings are
modelled as lists of naturals, Python `None` as `Option.none`, timestamps as
naturals, floats (only ever produced by dividing decoded integers by constants)
as rationals, and a raised exception as `Except.error`.
-/

namespace WsApi

/-- Decoded body of a V2 control-command response: the error payload
(`body.error_message`, `none` on success) and the server-issued event
correlation id (`body.event_id`). -/
structure Response where
  error_message : Option String
  event_id : Option String
  deriving DecidableEq, Repr

/-- One `RvcReqParam`: a parameter id and a byte-string value. -/
structure RvcReqParam where
  param_id : Nat
  param_value : List Nat
  deriving DecidableEq, Repr

/-- Observable content of one outgoing control-command message: the
`rvc_req_type` byte, the ordered `rvc_params` list, and the event id attached
to the body (`none` when the caller supplied none, mirroring the
`if event_id is not None` guard in `send_vehicle_control_command`). -/
structure OutMsg where
  rvc_req_type : Nat
  rvc_params : List RvcReqParam
  event_id : Option String
  deriving DecidableEq, Repr

/-- Embedding of `SaicApi.send_vehicle_control_command`: builds the outgoing
message (request type, parameters appended in order, event id attached only
when supplied) and returns it together with the decoded response the oracle
gives for this attempt. -/
def send_vehicle_control_command (env : Nat → Response) (attempt : Nat)
    (rvc_req_type : Nat) (rvc_params : List RvcReqParam)
    (event_id : Option String) : OutMsg × Response :=
  ({ rvc_req_type := rvc_req_type, rvc_params := rvc_params,
     event_id := event_id }, env attempt)

/-- Trace of one invocation of the retry coordinator: the outgoing messages in
order, the blocking sleeps (in seconds) performed between consecutive attempts,
and the final value of the local `vehicle_control_cmd_rsp_msg` variable. -/
structure RetryTrace where
  msgs : List OutMsg
  sleeps : List Nat
  last : Response
  deriving DecidableEq, Repr

/-- Embedding of the `while` loop of `send_vehicle_ctrl_cmd_with_retry`:
while the current response carries an error payload and `retry < 3`, sleep 2
seconds, take the event id from the current response and resend.  The loop
body runs at most twice (entered with `retry = 1`), so fuel `3 - retry` is
always sufficient; the invariant `fuel + retry = 3` makes the fuel-0 base case
coincide with the `retry < 3` test being false. -/
def retryLoop (env : Nat → Response) (rvc_req_type : Nat)
    (rvc_params : List RvcReqParam) : Nat → Nat → Nat → Response →
    List OutMsg → List Nat → RetryTrace
  | 0, _, _, rsp, msgs, sleeps => { msgs := msgs, sleeps := sleeps, last := rsp }
  | fuel + 1, attempt, retry, rsp, msgs, sleeps =>
    if rsp.error_message ≠ none ∧ retry < 3 then
      let event_id := rsp.event_id
      let (m, rsp2) :=
        send_vehicle_control_command env attempt rvc_req_type rvc_params event_id
      retryLoop env rvc_req_type rvc_params fuel (attempt + 1) (retry + 1) rsp2
        (msgs ++ [m]) (sleeps ++ [2])
    else { msgs := msgs, sleeps := sleeps, last := rsp }

/-- Embedding of `SaicApi.send_vehicle_ctrl_cmd_with_retry`.  The first
attempt is sent with no event id, then the retry loop runs with `retry = 1`.
The Python function body contains no `return` statement, so its value is
`None`: the second component of the result is the value returned to the
caller, the first is the observable trace. -/
def send_vehicle_ctrl_cmd_with_retry (env : Nat → Response) (rvc_req_type : Nat)
    (rvc_params : List RvcReqParam) : RetryTrace × Option Response :=
  let (m0, rsp0) := send_vehicle_control_command env 0 rvc_req_type rvc_params none
  (retryLoop env rvc_req_type rvc_params 2 1 1 rsp0 [m0] [], none)

/-- Parameter list built by `SaicApi.unlock_vehicle` (five parameters,
appended in this order). -/
def unlockParams : List RvcReqParam :=
  [ { param_id := 4, param_value := [0] },
    { param_id := 5, param_value := [0] },
    { param_id := 6, param_value := [0] },
    { param_id := 7, param_value := [3] },
    { param_id := 255, param_value := [0] } ]

/-- Embedding of `SaicApi.lock_vehicle`: retry-send request type `b'\x01'`
with an empty parameter list. -/
def lock_vehicle (env : Nat → Response) : RetryTrace × Option Response :=
  send_vehicle_ctrl_cmd_with_retry env 1 []

/-- Embedding of `SaicApi.unlock_vehicle`: retry-send request type `b'\x02'`
with the five unlock parameters. -/
def unlock_vehicle (env : Nat → Response) : RetryTrace × Option Response :=
  send_vehicle_ctrl_cmd_with_retry env 2 unlockParams

/-- Embedding of `SaicApi.start_rear_window_heat`: request type `b'\x20'`
with parameters (23, 01) and (255, 00). -/
def start_rear_window_heat (env : Nat → Response) : RetryTrace × Option Response :=
  send_vehicle_ctrl_cmd_with_retry env 32
    [ { param_id := 23, param_value := [1] },
      { param_id := 255, param_value := [0] } ]

/-- Embedding of `SaicApi.stop_rear_window_heat`: request type `b'\x20'`
with parameters (23, 00) and (255, 00). -/
def stop_rear_window_heat (env : Nat → Response) : RetryTrace × Option Response :=
  send_vehicle_ctrl_cmd_with_retry env 32
    [ { param_id := 23, param_value := [0] },
      { param_id := 255, param_value := [0] } ]

/-! ## Session manager: login and token refresh -/

/-- Mutable session state owned by a `SaicApi` instance: `uid`, `token` and
`token_expiration` (a timestamp, `none` until a login response supplies one).
`SaicApi.__init__` sets `uid = ''`, `token = ''`, `token_expiration = None`. -/
structure SaicSession where
  uid : String
  token : String
  token_expiration : Option Nat
  deriving DecidableEq, Repr

/-- Session state right after `SaicApi.__init__`. -/
def initialSession : SaicSession :=
  { uid := "", token := "", token_expiration := none }

/-- Decoded login response: the body error payload, the body `uid`, and the
`MpUserLoggingInRsp` application data (`token`, optional `token_expiration`). -/
structure LoginResponse where
  error_message : Option String
  uid : String
  token : String
  token_expiration : Option Nat
  deriving DecidableEq, Repr

/-- Embedding of the state-changing tail of `SaicApi.login` (lines 115-122):
on an error payload raise `SystemExit` (the session fields are left untouched);
otherwise store the uid and token, and store the expiration only when the
response supplies one.  Returns the session state after the call and either
the raised message or the returned response. -/
def login (s : SaicSession) (rsp : LoginResponse) :
    SaicSession × Except String LoginResponse :=
  match rsp.error_message with
  | some e => (s, Except.error e)
  | none =>
    ({ uid := rsp.uid, token := rsp.token,
       token_expiration :=
         if rsp.token_expiration.isSome then rsp.token_expiration
         else s.token_expiration },
     Except.ok rsp)

/-- Embedding of `SaicApi.get_token`: if an expiration is stored and lies
strictly before `now`, perform `login()` (whose decoded response is the oracle
argument `rsp`) and then return `self.token`; otherwise return the stored
token.  The result carries the session state after the call, the returned
token (or the propagated login exception), and the number of `login()` calls
performed. -/
def get_token (s : SaicSession) (now : Nat) (rsp : LoginResponse) :
    SaicSession × Except String String × Nat :=
  match s.token_expiration with
  | some exp =>
    if exp < now then
      match login s rsp with
      | (s1, Except.error e) => (s1, Except.error e, 1)
      | (s1, Except.ok _) => (s1, Except.ok s1.token, 1)
    else (s, Except.ok s.token, 0)
  | none => (s, Except.ok s.token, 0)

/-! ## Login identifier padding -/

/-- The `UID_INIT` constant of `ws_api.py`: forty-nine zero-characters
followed by a number sign, fifty characters in all. -/
def UID_INIT : String := "0000000000000000000000000000000000000000000000000#"

/-- Login identifier submitted by `SaicApi.login` (line 99):
`UID_INIT[len(self.saic_user):] + self.saic_user`, i.e. `UID_INIT` with its
first `len(user)` characters dropped, followed by the username.  Modelled on
the character list of the string. -/
def loginIdentifier (user : String) : List Char :=
  UID_INIT.data.drop user.data.length ++ user.data

/-! ## Telemetry forwarder -/

/-- GPS position coordinates (`latitude`, `longitude`, `altitude`) as decoded
integers. -/
structure PositionData where
  latitude : Int
  longitude : Int
  altitude : Int
  deriving DecidableEq, Repr

/-- Way point: optional position plus `speed` and `heading`. -/
structure WayPointData where
  position : Option PositionData
  speed : Int
  heading : Int
  deriving DecidableEq, Repr

/-- GPS block of the vehicle-status response: optional way point and the
`timestamp_4_short.seconds` field. -/
structure GpsPosition where
  way_point : Option WayPointData
  timestamp_seconds : Int
  deriving DecidableEq, Repr

/-- Basic vehicle status fields read by the forwarder. -/
structure BasicVehicleStatus where
  exterior_temperature : Int
  mileage : Int
  fuel_range_elec : Int
  deriving DecidableEq, Repr

/-- Decoded `OtaRvmVehicleStatusResp25857` as observed by `update_abrp`:
optional GPS block, basic status, and the derived charging/parked flags. -/
structure VehicleStatusResp where
  gps_position : Option GpsPosition
  basic_vehicle_status : BasicVehicleStatus
  is_charging : Bool
  is_parked : Bool
  deriving DecidableEq, Repr

/-- Decoded `OtaChrgMangDataResp` as observed by `update_abrp`: the raw SOC
display field and the derived power, voltage and current readings. -/
structure ChargeStatusResp where
  bmsPackSOCDsp : Int
  power : Rat
  voltage : Rat
  current : Rat
  deriving DecidableEq, Repr

/-- The `AbrpApi` instance state: API key and user token (either may be
`None`). -/
structure AbrpApi where
  abrp_api_key : Option String
  abrp_user_token : Option String
  deriving DecidableEq, Repr

/-- The telemetry payload (`data` dictionary) built by `update_abrp`; the
three optional entries mirror the conditional insertions. -/
structure TlmData where
  utc : Int
  soc : Rat
  power : Rat
  speed : Rat
  lat : Rat
  lon : Rat
  is_charging : Bool
  is_parked : Bool
  heading : Int
  elevation : Int
  voltage : Rat
  current : Rat
  ext_temp : Option Int
  odometer : Option Rat
  est_battery_range : Option Rat
  deriving DecidableEq, Repr

/-- Telemetry payload built inside the guarded branch of `update_abrp`,
with the three conditionally-included optional fields. -/
def mkTlmData (vs : VehicleStatusResp) (gps : GpsPosition) (wp : WayPointData)
    (pos : PositionData) (cs : ChargeStatusResp) : TlmData :=
  { utc := gps.timestamp_seconds,
    soc := (cs.bmsPackSOCDsp : Rat) / 10,
    power := cs.power,
    speed := (wp.speed : Rat) / 10,
    lat := (pos.latitude : Rat) / 1000000,
    lon := (pos.longitude : Rat) / 1000000,
    is_charging := vs.is_charging,
    is_parked := vs.is_parked,
    heading := wp.heading,
    elevation := pos.altitude,
    voltage := cs.voltage,
    current := cs.current,
    ext_temp :=
      if vs.basic_vehicle_status.exterior_temperature ≠ -128 then
        some vs.basic_vehicle_status.exterior_temperature
      else none,
    odometer :=
      if vs.basic_vehicle_status.mileage > 0 then
        some ((vs.basic_vehicle_status.mileage : Rat) / 10)
      else none,
    est_battery_range :=
      if vs.basic_vehicle_status.fuel_range_elec > 0 then
        some ((vs.basic_vehicle_status.fuel_range_elec : Rat) / 10)
      else none }

/-- Embedding of `AbrpApi.update_abrp`: the guard conjunction of lines 31-41
(key and token present, vehicle status present, GPS position, way point and
position present, latitude and longitude strictly positive, charging status
present) decides whether the single telemetry GET is performed.  `some d`
means exactly one upload carrying payload `d` was attempted, `none` means no
network call. -/
def update_abrp (api : AbrpApi) (vehicle_status : Option VehicleStatusResp)
    (charge_status : Option ChargeStatusResp) : Option TlmData :=
  match api.abrp_api_key, api.abrp_user_token, vehicle_status with
  | some _, some _, some vs =>
    match vs.gps_position with
    | some gps =>
      match gps.way_point with
      | some wp =>
        match wp.position with
        | some pos =>
          if pos.latitude > 0 ∧ pos.longitude > 0 then
            match charge_status with
            | some cs => some (mkTlmData vs gps wp pos cs)
            | none => none
          else none
        | none => none
      | none => none
    | none => none
  | _, _, _ => none

/-! ## Retry-loop characterization -/

/-- Case analysis of one invocation of the retry coordinator: depending on
which of the first responses carry error payloads, the trace is one, two or
three attempts, each retry tagged with the preceding response's event id and
preceded by one 2-second sleep. -/
lemma retry_trace_eq (env : Nat → Response) (ty : Nat) (ps : List RvcReqParam) :
    (send_vehicle_ctrl_cmd_with_retry env ty ps).1 =
      if (env 0).error_message = none then
        { msgs := [⟨ty, ps, none⟩], sleeps := [], last := env 0 }
      else if (env 1).error_message = none then
        { msgs := [⟨ty, ps, none⟩, ⟨ty, ps, (env 0).event_id⟩],
          sleeps := [2], last := env 1 }
      else
        { msgs := [⟨ty, ps, none⟩, ⟨ty, ps, (env 0).event_id⟩,
                   ⟨ty, ps, (env 1).event_id⟩],
          sleeps := [2, 2], last := env 2 } := by
  by_cases h0 : (env 0).error_message = none
  · simp [send_vehicle_ctrl_cmd_with_retry, send_vehicle_control_command,
      retryLoop, h0]
  · by_cases h1 : (env 1).error_message = none
    · simp [send_vehicle_ctrl_cmd_with_retry, send_vehicle_control_command,
        retryLoop, h0, h1]
    · simp [send_vehicle_ctrl_cmd_with_retry, send_vehicle_control_command,
        retryLoop, h0, h1]

/-- Server oracle for the retry scenario: error payloads on the first and
second attempts, a clean third response. -/
def envErrErrOk : Nat → Response := fun n =>
  if n = 0 then { error_message := some "e0", event_id := some "ev0" }
  else if n = 1 then { error_message := some "e1", event_id := some "ev1" }
  else { error_message := none, event_id := some "ev2" }

/-- Server oracle whose every response is error-free. -/
def envAllOk : Nat → Response := fun _ =>
  { error_message := none, event_id := some "ev" }

/-- C1 counterexample: with error payloads on the 1st and 2nd responses and a
clean 3rd response, the value `send_vehicle_ctrl_cmd_with_retry` hands back to
the caller is `none` (the Python function body has no return statement), not
the final decoded response, although that final response carries no error
payload. -/
theorem C1_counterexample :
    (envErrErrOk 0).error_message.isSome = true ∧
      (envErrErrOk 1).error_message.isSome = true ∧
      (envErrErrOk 2).error_message = none ∧
      (send_vehicle_ctrl_cmd_with_retry envErrErrOk 1 []).1.msgs.length = 3 ∧
      (send_vehicle_ctrl_cmd_with_retry envErrErrOk 1 []).1.last.error_message =
        none ∧
      (send_vehicle_ctrl_cmd_with_retry envErrErrOk 1 []).2 ≠
        some (send_vehicle_ctrl_cmd_with_retry envErrErrOk 1 []).1.last := by
  decide

/-- C1 (amended): the retry coordinator never raises on exhaustion but also
never returns the response: its return value is always `None`.  In the
scenario where the 1st and 2nd responses carry error payloads and the 3rd does
not, exactly 2 retries occur (3 messages sent), the last decoded response held
by the coordinator is the 3rd response and carries no error payload, yet the
caller receives `none`, not that response. -/
theorem C1_retry_returns_none (env : Nat → Response) (ty : Nat)
    (ps : List RvcReqParam) (h0 : (env 0).error_message ≠ none)
    (h1 : (env 1).error_message ≠ none) (h2 : (env 2).error_message = none) :
    (send_vehicle_ctrl_cmd_with_retry env ty ps).2 = none ∧
      (send_vehicle_ctrl_cmd_with_retry env ty ps).1.msgs.length = 3 ∧
      (send_vehicle_ctrl_cmd_with_retry env ty ps).1.last = env 2 ∧
      (send_vehicle_ctrl_cmd_with_retry env ty ps).1.last.error_message =
        none := by
  have h := retry_trace_eq env ty ps
  rw [if_neg h0, if_neg h1] at h
  refine ⟨rfl, ?_, ?_, ?_⟩ <;> rw [h] <;> simp [h2]

/-- Witness for C1: the amended statement instantiated at the concrete
two-errors-then-success oracle. -/
theorem C1_retry_returns_none_witness :
    (send_vehicle_ctrl_cmd_with_retry envErrErrOk 3 []).2 = none ∧
      (send_vehicle_ctrl_cmd_with_retry envErrErrOk 3 []).1.msgs.length = 3 ∧
      (send_vehicle_ctrl_cmd_with_retry envErrErrOk 3 []).1.last =
        envErrErrOk 2 ∧
      (send_vehicle_ctrl_cmd_with_retry envErrErrOk 3 []).1.last.error_message =
        none :=
  C1_retry_returns_none envErrErrOk 3 [] (by decide) (by decide) (by decide)

/-- C5: every invocation of the retry coordinator issues at most 3 attempts;
the sleeps are exactly one fixed 2-second delay between each pair of
consecutive attempts; an error-free first response yields a single attempt;
and an attempt beyond the k-th exists only when the k-th response carried an
error payload. -/
theorem C5_retry_bounds (env : Nat → Response) (ty : Nat)
    (ps : List RvcReqParam) :
    (send_vehicle_ctrl_cmd_with_retry env ty ps).1.msgs.length ≤ 3 ∧
      (send_vehicle_ctrl_cmd_with_retry env ty ps).1.sleeps =
        List.replicate
          ((send_vehicle_ctrl_cmd_with_retry env ty ps).1.msgs.length - 1) 2 ∧
      ((env 0).error_message = none →
        (send_vehicle_ctrl_cmd_with_retry env ty ps).1.msgs.length = 1) ∧
      (∀ k, k + 1 < (send_vehicle_ctrl_cmd_with_retry env ty ps).1.msgs.length →
        (env k).error_message ≠ none) := by
  have h := retry_trace_eq env ty ps
  by_cases h0 : (env 0).error_message = none
  · rw [if_pos h0] at h
    rw [h]
    refine ⟨by simp, by simp, fun _ => by simp, fun k hk => ?_⟩
    simp at hk
  · by_cases h1 : (env 1).error_message = none
    · rw [if_neg h0, if_pos h1] at h
      rw [h]
      refine ⟨by simp, by simp, fun hc => absurd hc h0, fun k hk => ?_⟩
      simp only [List.length_cons, List.length_nil] at hk
      rcases k with _ | k
      · exact h0
      · omega
    · rw [if_neg h0, if_neg h1] at h
      rw [h]
      refine ⟨by simp, by simp, fun hc => absurd hc h0, fun k hk => ?_⟩
      simp only [List.length_cons, List.length_nil] at hk
      rcases k with _ | _ | k
      · exact h0
      · exact h1
      · omega

/-- Witness for C5: the attempt bound and sleep pattern at the concrete
two-errors-then-success oracle. -/
theorem C5_retry_bounds_witness :
    (send_vehicle_ctrl_cmd_with_retry envErrErrOk 1 []).1.msgs.length ≤ 3 ∧
      (send_vehicle_ctrl_cmd_with_retry envErrErrOk 1 []).1.sleeps =
        List.replicate
          ((send_vehicle_ctrl_cmd_with_retry envErrErrOk 1 []).1.msgs.length - 1)
          2 :=
  ⟨(C5_retry_bounds envErrErrOk 1 []).1, (C5_retry_bounds envErrErrOk 1 []).2.1⟩

/-- C6: the 1st attempt of any actuation command carries no caller-supplied
event id, and the (k+1)-st attempt, when it exists, carries exactly the event
id of the k-th decoded response. -/
theorem C6_event_id_correlation (env : Nat → Response) (ty : Nat)
    (ps : List RvcReqParam) :
    ((send_vehicle_ctrl_cmd_with_retry env ty ps).1.msgs.map
        OutMsg.event_id).get? 0 = some none ∧
      ∀ k, k + 1 < (send_vehicle_ctrl_cmd_with_retry env ty ps).1.msgs.length →
        ((send_vehicle_ctrl_cmd_with_retry env ty ps).1.msgs.map
          OutMsg.event_id).get? (k + 1) = some ((env k).event_id) := by
  have h := retry_trace_eq env ty ps
  by_cases h0 : (env 0).error_message = none
  · rw [if_pos h0] at h
    rw [h]
    refine ⟨rfl, fun k hk => ?_⟩
    simp only [List.length_cons, List.length_nil] at hk
    omega
  · by_cases h1 : (env 1).error_message = none
    · rw [if_neg h0, if_pos h1] at h
      rw [h]
      refine ⟨rfl, fun k hk => ?_⟩
      simp only [List.length_cons, List.length_nil] at hk
      rcases k with _ | k
      · rfl
      · omega
    · rw [if_neg h0, if_neg h1] at h
      rw [h]
      refine ⟨rfl, fun k hk => ?_⟩
      simp only [List.length_cons, List.length_nil] at hk
      rcases k with _ | _ | k
      · rfl
      · rfl
      · omega

/-- Witness for C6: at the concrete two-errors-then-success oracle, the first
attempt carries no event id and the second attempt carries the first
response's event id. -/
theorem C6_event_id_correlation_witness :
    ((send_vehicle_ctrl_cmd_with_retry envErrErrOk 2 []).1.msgs.map
        OutMsg.event_id).get? 0 = some none ∧
      ((send_vehicle_ctrl_cmd_with_retry envErrErrOk 2 []).1.msgs.map
        OutMsg.event_id).get? 1 = some ((envErrErrOk 0).event_id) :=
  ⟨(C6_event_id_correlation envErrErrOk 2 []).1,
    (C6_event_id_correlation envErrErrOk 2 []).2 0 (by decide)⟩

/-- C9: every control command issued by `unlock_vehicle` carries exactly the
five parameters with ids 4, 5, 6, 7, 255 and values 00, 00, 00, 03, 00 in
that order under request type 2, while `lock_vehicle`, when its first response
carries no error payload, issues exactly one command with an empty parameter
list under request type 1, a marker distinct from unlock's. -/
theorem C9_lock_unlock_commands (envU envL : Nat → Response)
    (h : (envL 0).error_message = none) :
    (∀ m ∈ (unlock_vehicle envU).1.msgs,
        m.rvc_req_type = 2 ∧ m.rvc_params = unlockParams) ∧
      unlockParams.map RvcReqParam.param_id = [4, 5, 6, 7, 255] ∧
      unlockParams.map RvcReqParam.param_value = [[0], [0], [0], [3], [0]] ∧
      unlockParams.length = 5 ∧
      (lock_vehicle envL).1.msgs =
        [{ rvc_req_type := 1, rvc_params := [], event_id := none }] ∧
      ∀ mL ∈ (lock_vehicle envL).1.msgs, ∀ mU ∈ (unlock_vehicle envU).1.msgs,
        mL.rvc_req_type ≠ mU.rvc_req_type := by
  have hU := retry_trace_eq envU 2 unlockParams
  have hL := retry_trace_eq envL 1 []
  rw [if_pos h] at hL
  have hlock : (lock_vehicle envL).1.msgs =
      [{ rvc_req_type := 1, rvc_params := [], event_id := none }] := by
    rw [lock_vehicle, hL]
  have hunlock : ∀ m ∈ (unlock_vehicle envU).1.msgs,
      m.rvc_req_type = 2 ∧ m.rvc_params = unlockParams := by
    intro m hm
    rw [unlock_vehicle, hU] at hm
    by_cases hu0 : (envU 0).error_message = none
    · rw [if_pos hu0] at hm
      simp at hm
      subst hm
      exact ⟨rfl, rfl⟩
    · rw [if_neg hu0] at hm
      by_cases hu1 : (envU 1).error_message = none
      · rw [if_pos hu1] at hm
        simp at hm
        rcases hm with hm | hm <;> subst hm <;> exact ⟨rfl, rfl⟩
      · rw [if_neg hu1] at hm
        simp at hm
        rcases hm with hm | hm | hm <;> subst hm <;> exact ⟨rfl, rfl⟩
  refine ⟨hunlock, by decide, by decide, by decide, hlock, ?_⟩
  intro mL hmL mU hmU
  rw [hlock] at hmL
  simp at hmL
  subst hmL
  have := (hunlock mU hmU).1
  simp [this]

/-- Witness for C9: instantiated with the two-errors-then-success oracle for
unlock and the error-free oracle for lock, extracting the parameter facts and
the single lock message. -/
theorem C9_lock_unlock_commands_witness :
    unlockParams.map RvcReqParam.param_id = [4, 5, 6, 7, 255] ∧
      unlockParams.map RvcReqParam.param_value = [[0], [0], [0], [3], [0]] ∧
      unlockParams.length = 5 ∧
      (lock_vehicle envAllOk).1.msgs =
        [{ rvc_req_type := 1, rvc_params := [], event_id := none }] :=
  ⟨(C9_lock_unlock_commands envErrErrOk envAllOk (by decide)).2.1,
    (C9_lock_unlock_commands envErrErrOk envAllOk (by decide)).2.2.1,
    (C9_lock_unlock_commands envErrErrOk envAllOk (by decide)).2.2.2.1,
    (C9_lock_unlock_commands envErrErrOk envAllOk (by decide)).2.2.2.2.1⟩

/-! ## Session claims -/

/-- Session with a previously stored token and expiration, for the re-login
scenario. -/
def sessionWithExpiration : SaicSession :=
  { uid := "u0", token := "t0", token_expiration := some 5 }

/-- Successful login response that supplies no expiration. -/
def loginRspNoExpiration : LoginResponse :=
  { error_message := none, uid := "u1", token := "t1",
    token_expiration := none }

/-- Successful login response that supplies an expiration. -/
def loginRspWithExpiration : LoginResponse :=
  { error_message := none, uid := "u1", token := "t1",
    token_expiration := some 99 }

/-- Erroring login response. -/
def loginRspError : LoginResponse :=
  { error_message := some "login failed", uid := "", token := "",
    token_expiration := none }

/-- C2 counterexample: a successful login whose response supplies no
expiration leaves the previously stored expiration in place instead of
overwriting it with the response's (absent) value: the stored expiration
remains `some 5` while the response's is `none`. -/
theorem C2_counterexample :
    loginRspNoExpiration.error_message = none ∧
      (login sessionWithExpiration loginRspNoExpiration).1.token = "t1" ∧
      (login sessionWithExpiration loginRspNoExpiration).1.token_expiration =
        some 5 ∧
      loginRspNoExpiration.token_expiration = none ∧
      (login sessionWithExpiration loginRspNoExpiration).1.token_expiration ≠
        loginRspNoExpiration.token_expiration := by
  decide

/-- C2 (amended): every successful login overwrites the stored uid and access
token with the response's values unconditionally, but overwrites the stored
expiration only when the response supplies one; when the response's
expiration is absent, the previously stored expiration is retained. -/
theorem C2_login_overwrite (s : SaicSession) (rsp : LoginResponse)
    (h : rsp.error_message = none) :
    (login s rsp).1.uid = rsp.uid ∧ (login s rsp).1.token = rsp.token ∧
      (login s rsp).1.token_expiration =
        (if rsp.token_expiration.isSome then rsp.token_expiration
         else s.token_expiration) ∧
      (login s rsp).2 = Except.ok rsp := by
  simp [login, h]

/-- Witness for C2: the amended overwrite behaviour at a concrete session and
a concrete expiration-carrying response. -/
theorem C2_login_overwrite_witness :
    (login sessionWithExpiration loginRspWithExpiration).1.uid =
        loginRspWithExpiration.uid ∧
      (login sessionWithExpiration loginRspWithExpiration).1.token =
        loginRspWithExpiration.token ∧
      (login sessionWithExpiration loginRspWithExpiration).1.token_expiration =
        (if loginRspWithExpiration.token_expiration.isSome then
          loginRspWithExpiration.token_expiration
         else sessionWithExpiration.token_expiration) ∧
      (login sessionWithExpiration loginRspWithExpiration).2 =
        Except.ok loginRspWithExpiration :=
  C2_login_overwrite sessionWithExpiration loginRspWithExpiration rfl

/-- C7: a login response carrying an error payload makes `login` raise (the
result is `Except.error` with the decoded payload, never a normal return) and
leaves the session state exactly as it was: uid, token and expiration are
unchanged. -/
theorem C7_login_error_aborts (s : SaicSession) (rsp : LoginResponse)
    (e : String) (h : rsp.error_message = some e) :
    login s rsp = (s, Except.error e) := by
  simp [login, h]

/-- Witness for C7: the erroring login response leaves the freshly constructed
session untouched and raises. -/
theorem C7_login_error_aborts_witness :
    login initialSession loginRspError =
      (initialSession, Except.error "login failed") :=
  C7_login_error_aborts initialSession loginRspError "login failed" rfl

/-- Behaviour of `get_token` when no expiration is stored: no login, state and
token unchanged. -/
lemma get_token_no_expiration (s : SaicSession) (now : Nat)
    (rsp : LoginResponse) (h : s.token_expiration = none) :
    get_token s now rsp = (s, Except.ok s.token, 0) := by
  simp [get_token, h]

/-- Behaviour of `get_token` when the stored expiration has not passed: no
login, state and token unchanged. -/
lemma get_token_not_expired (s : SaicSession) (now : Nat)
    (rsp : LoginResponse) (exp : Nat) (h : s.token_expiration = some exp)
    (hlt : ¬exp < now) :
    get_token s now rsp = (s, Except.ok s.token, 0) := by
  simp [get_token, h, hlt]

/-- Behaviour of `get_token` when the stored expiration has passed: one login
runs, and the token of the post-login state (or the login exception) is
returned. -/
lemma get_token_expired (s : SaicSession) (now : Nat) (rsp : LoginResponse)
    (exp : Nat) (h : s.token_expiration = some exp) (hlt : exp < now) :
    get_token s now rsp =
      ((login s rsp).1,
        Except.map (fun _ => (login s rsp).1.token) (login s rsp).2, 1) := by
  simp only [get_token, h, if_pos hlt]
  rcases login s rsp with ⟨s1, r⟩
  rcases r <;> rfl

/-- C4: `get_token` performs a login if and only if an expiration is stored
and lies strictly in the past; with no stored expiration, or a stored
expiration not in the past, it performs no login and returns state and token
unchanged; with a stored past expiration it performs exactly one login and
returns the token of the post-login state (or propagates the login
exception). -/
theorem C4_get_token_refresh (s : SaicSession) (now : Nat)
    (rsp : LoginResponse) :
    ((get_token s now rsp).2.2 = 1 ↔
        ∃ exp, s.token_expiration = some exp ∧ exp < now) ∧
      ((∀ exp, s.token_expiration = some exp → ¬exp < now) →
        get_token s now rsp = (s, Except.ok s.token, 0)) ∧
      (∀ exp, s.token_expiration = some exp → exp < now →
        (get_token s now rsp).1 = (login s rsp).1 ∧
          (get_token s now rsp).2.1 =
            Except.map (fun _ => (login s rsp).1.token) (login s rsp).2 ∧
          (get_token s now rsp).2.2 = 1) := by
  rcases hexp : s.token_expiration with _ | exp
  · have hg := get_token_no_expiration s now rsp hexp
    refine ⟨?_, fun _ => hg, fun e2 h2 hlt2 => absurd h2 (by simp)⟩
    rw [hg]
    simp
  · by_cases hlt : exp < now
    · have hg := get_token_expired s now rsp exp hexp hlt
      refine ⟨?_, fun hno => absurd hlt (hno exp rfl), fun e2 h2 hlt2 => ?_⟩
      · rw [hg]
        exact ⟨fun _ => ⟨exp, rfl, hlt⟩, fun _ => rfl⟩
      · rw [hg]
        exact ⟨rfl, rfl, rfl⟩
    · have hg := get_token_not_expired s now rsp exp hexp hlt
      refine ⟨?_, fun _ => hg, fun e2 h2 hlt2 => ?_⟩
      · rw [hg]
        constructor
        · intro hc
          simp at hc
        · rintro ⟨e3, h3, hlt3⟩
          injection h3 with hv
          subst hv
          exact absurd hlt3 hlt
      · injection h2 with hv
        subst hv
        exact absurd hlt2 hlt

/-- Witness for C4: at a session whose stored expiration 5 lies before
now = 10, exactly one login occurs; at now = 3 (expiration in the future),
none does and state and token are unchanged. -/
theorem C4_get_token_refresh_witness :
    (get_token sessionWithExpiration 10 loginRspWithExpiration).2.2 = 1 ∧
      get_token sessionWithExpiration 3 loginRspWithExpiration =
        (sessionWithExpiration, Except.ok sessionWithExpiration.token, 0) :=
  ⟨(C4_get_token_refresh sessionWithExpiration 10 loginRspWithExpiration).1.mpr
      ⟨5, rfl, by decide⟩,
    (C4_get_token_refresh sessionWithExpiration 3 loginRspWithExpiration).2.1
      (by decide)⟩

/-! ## Login identifier claims -/

/-- Character-level decomposition of the `UID_INIT` constant: forty-nine
zero-characters followed by a number sign. -/
lemma UID_INIT_data : UID_INIT.data = List.replicate 49 '0' ++ ['#'] := by
  decide

/-- C3 counterexample: for the username abc (shorter than the fixed width 50)
the submitted identifier is not the username left-padded with zero-characters,
and its 47-character padding prefix is not all zero-characters (its last
character is a number sign). -/
theorem C3_counterexample :
    loginIdentifier "abc" ≠ List.replicate 47 '0' ++ "abc".data ∧
      ((loginIdentifier "abc").take 47).all (fun c => c = '0') = false ∧
      (loginIdentifier "abc").get? 46 = some '#' := by
  decide

/-- C3 (amended): for every username of at most 49 characters the submitted
identifier has the fixed width 50 and consists of 49 minus the username
length zero-characters, then one number-sign character, then the username;
so the padding prefix is all zero-characters except for its final number
sign. -/
theorem C3_login_identifier_padding (user : String)
    (h : user.data.length ≤ 49) :
    loginIdentifier user =
        List.replicate (49 - user.data.length) '0' ++ ['#'] ++ user.data ∧
      (loginIdentifier user).length = 50 := by
  have hdrop : UID_INIT.data.drop user.data.length =
      List.replicate (49 - user.data.length) '0' ++ ['#'] := by
    rw [UID_INIT_data,
      List.drop_append_of_le_length (by simpa using h),
      List.drop_replicate]
  constructor
  · rw [loginIdentifier, hdrop, List.append_assoc]
  · rw [loginIdentifier, hdrop]
    simp only [List.length_append, List.length_replicate, List.length_cons,
      List.length_nil]
    omega

/-- Witness for C3: the amended padding shape at the username abc. -/
theorem C3_login_identifier_padding_witness :
    loginIdentifier "abc" =
        List.replicate (49 - "abc".data.length) '0' ++ ['#'] ++ "abc".data ∧
      (loginIdentifier "abc").length = 50 :=
  C3_login_identifier_padding "abc" (by decide)

/-! ## Telemetry forwarder claims -/

/-- GPS coordinates with strictly positive latitude and longitude. -/
def validPosition : PositionData :=
  { latitude := 1, longitude := 1, altitude := 0 }

/-- Way point holding the valid position. -/
def validWayPoint : WayPointData :=
  { position := some validPosition, speed := 0, heading := 0 }

/-- GPS block holding the valid way point. -/
def validGps : GpsPosition :=
  { way_point := some validWayPoint, timestamp_seconds := 0 }

/-- Vehicle-status response with a fully populated GPS fix at strictly
positive coordinates. -/
def validVehicleStatus : VehicleStatusResp :=
  { gps_position := some validGps,
    basic_vehicle_status :=
      { exterior_temperature := 0, mileage := 0, fuel_range_elec := 0 },
    is_charging := false, is_parked := true }

/-- Concrete charging-status response. -/
def validChargeStatus : ChargeStatusResp :=
  { bmsPackSOCDsp := 500, power := 0, voltage := 0, current := 0 }

/-- C8 counterexample: with the vehicle-status response present, GPS position,
way point and position present, latitude and longitude strictly positive and
the charging-status response present, the forwarder still performs no network
call when the API key is absent — so presence and validity of those inputs do
not suffice for an upload. -/
theorem C8_counterexample :
    validVehicleStatus.gps_position.isSome = true ∧
      (update_abrp { abrp_api_key := none, abrp_user_token := some "t" }
        (some validVehicleStatus) (some validChargeStatus)) = none := by
  decide

/-- C8 (amended): the forwarder performs no network call whenever the
vehicle-status response, its GPS position, way point or position, or the
charging-status response is absent, or latitude or longitude is nonpositive;
it attempts exactly one upload precisely when all of those are present and
valid and, additionally, the API key and the user token are both present. -/
theorem C8_update_abrp_gating (api : AbrpApi)
    (vso : Option VehicleStatusResp) (cso : Option ChargeStatusResp) :
    (update_abrp api vso cso).isSome = true ↔
      api.abrp_api_key.isSome = true ∧ api.abrp_user_token.isSome = true ∧
        ∃ vs gps wp pos cs, vso = some vs ∧ cso = some cs ∧
          vs.gps_position = some gps ∧ gps.way_point = some wp ∧
          wp.position = some pos ∧ pos.latitude > 0 ∧ pos.longitude > 0 := by
  rcases api with ⟨key, tok⟩
  rcases key with _ | k
  · simp [update_abrp]
  · rcases tok with _ | t
    · rcases vso with _ | vs <;> simp [update_abrp]
    · rcases vso with _ | vs
      · simp [update_abrp]
      · rcases hgps : vs.gps_position with _ | gps
        · simp [update_abrp, hgps]
        · rcases hwp : gps.way_point with _ | wp
          · simp [update_abrp, hgps, hwp]
          · rcases hpos : wp.position with _ | pos
            · simp [update_abrp, hgps, hwp, hpos]
            · by_cases hlat : pos.latitude > 0 ∧ pos.longitude > 0
              · rcases cso with _ | cs <;>
                  simp [update_abrp, hgps, hwp, hpos, hlat]
              · rcases cso with _ | cs <;>
                  simp [update_abrp, hgps, hwp, hpos, hlat]

/-- Witness for C8: with both credentials and all inputs present and valid,
the forwarder attempts the upload. -/
theorem C8_update_abrp_gating_witness :
    (update_abrp { abrp_api_key := some "k", abrp_user_token := some "t" }
        (some validVehicleStatus) (some validChargeStatus)).isSome = true :=
  (C8_update_abrp_gating
        { abrp_api_key := some "k", abrp_user_token := some "t" }
        (some validVehicleStatus) (some validChargeStatus)).mpr
    ⟨rfl, rfl, validVehicleStatus, validGps, validWayPoint, validPosition,
      validChargeStatus, rfl, rfl, rfl, rfl, rfl, by decide, by decide⟩

/-- C10: whenever the API key or the user token is absent, `update_abrp`
performs no network call and returns silently, whatever the vehicle-status
and charging-status responses contain. -/
theorem C10_missing_credentials_skip (api : AbrpApi)
    (vso : Option VehicleStatusResp) (cso : Option ChargeStatusResp)
    (h : api.abrp_api_key = none ∨ api.abrp_user_token = none) :
    update_abrp api vso cso = none := by
  rcases api with ⟨key, tok⟩
  rcases h with h | h <;> subst h
  · rfl
  · rcases key with _ | k
    · rfl
    · rcases vso with _ | vs <;> rfl

/-- Witness for C10: absent user token with fully valid telemetry inputs
still yields no upload. -/
theorem C10_missing_credentials_skip_witness :
    update_abrp { abrp_api_key := some "k", abrp_user_token := none }
      (some validVehicleStatus) (some validChargeStatus) = none :=
  C10_missing_credentials_skip
    { abrp_api_key := some "k", abrp_user_token := none }
    (some validVehicleStatus) (some validChargeStatus) (Or.inr rfl)

end WsApi
